import Mathlib

/-!
Verification of the GlitchGuard retail EDI/ASN validation pipeline.

This file gives a shallow embedding, in Lean 4, of the EDI segment parser
(`utils/file_handler.py`), the five validators (`validators/edi_validator.py`,
`gstin_validator.py`, `product_validator.py`, `timing_validator.py`,
`certificate_validator.py`) and the orchestrator (`validate_file` in `app.py`),
and proves properties of the embedded program.

Modelling conventions:
* Python strings are `String`; character-level operations work on `String.data`.
* `datetime.now()` is an input: functions that read the wall clock take an
  explicit time parameter.  A `datetime` value is a `DT` record (year, month,
  day, hour, minute — the program never constructs seconds); arithmetic on
  datetimes is done in whole minutes since a fixed civil epoch, which is exact
  for this program because every datetime it builds has second = 0.
* Python dicts with a fixed key set are records; a key that a code path may
  leave absent becomes an `Option` field (`none` = key absent).
* `re.findall` over the fixed regexes of this code base is implemented by a
  direct left-to-right, non-overlapping scanner, one per regex.
* Python's `list(set(xs))` has implementation-defined order; it is modelled as
  first-occurrence deduplication.  No property proved here depends on the order.
-/

/-! ## Generic string and character helpers -/

/-- Character class `[0-9A-Z]` (also used for Python `str.isalnum` on the
characters this program feeds it, which are always ASCII). -/
def isUpperDigit (c : Char) : Bool := c.isDigit || c.isUpper

/-- Character class `[1-9A-Z]`. -/
def isEntityChar (c : Char) : Bool := (c.isDigit && c != '0') || c.isUpper

/-- Numeric value of an ASCII digit character. -/
def charVal (c : Char) : Nat := c.toNat - 48

/-- Value of a string of ASCII digits, as Python `int(s)` on a digit string. -/
def natOfDigits (l : List Char) : Nat := l.foldl (fun a c => 10 * a + charVal c) 0

/-- Sublist (contiguous) test on character lists: Python `needle in hay`. -/
def listHasSublist (needle : List Char) : List Char → Bool
  | [] => needle.isEmpty
  | c :: rest => needle.isPrefixOf (c :: rest) || listHasSublist needle rest

/-- Python `sep in s` for a single character. -/
def strContainsChar (s : String) (c : Char) : Bool := s.data.any (fun x => x == c)

/-- Split a character list on a separator character; Python `str.split(sep)`
semantics (the empty list yields one empty field; empties are kept). -/
def splitOnChar (sep : Char) : List Char → List (List Char)
  | [] => [[]]
  | c :: rest =>
    let r := splitOnChar sep rest
    if c == sep then [] :: r
    else
      match r with
      | [] => [[c]]
      | h :: t => (c :: h) :: t

/-- Python `s.split(sep)` for the single-character separators this program
uses (`'\n'`, `'*'`, `'|'`). -/
def strSplitOn (sep : Char) (s : String) : List String :=
  (splitOnChar sep s.data).map (fun l => ⟨l⟩)

/-- Python `s.strip()` (ASCII whitespace, which covers this program's data). -/
def strTrim (s : String) : String :=
  ⟨((s.data.dropWhile Char.isWhitespace).reverse.dropWhile Char.isWhitespace).reverse⟩

/-- Python `s.startswith(pre)`. -/
def strStartsWith (s pre : String) : Bool := pre.data.isPrefixOf s.data

/-- Python `s.endswith(suf)`. -/
def strEndsWith (s suf : String) : Bool := suf.data.reverse.isPrefixOf s.data.reverse

/-- Python substring containment `needle in hay`. -/
def strHasSubstr (hay needle : String) : Bool := listHasSublist needle.data hay.data

/-- Python `str.lower()` (ASCII; every needle this program lowercases against
is ASCII). -/
def strLower (s : String) : String := ⟨s.data.map Char.toLower⟩

/-- Match a literal: if `lit` is a prefix of `l`, return the rest. -/
def stripLit (lit : List Char) (l : List Char) : Option (List Char) :=
  if lit.isPrefixOf l then some (l.drop lit.length) else none

/-- Match exactly `n` characters of class `p`; return (matched, rest). -/
def takeClass (p : Char → Bool) (n : Nat) (l : List Char) :
    Option (List Char × List Char) :=
  let pre := l.take n
  if pre.length == n && pre.all p then some (pre, l.drop n) else none

/-- Match one character per class in `cs`; return (matched, rest). -/
def matchClasses : List (Char → Bool) → List Char → Option (List Char × List Char)
  | [], l => some ([], l)
  | _ :: _, [] => none
  | p :: ps, c :: l =>
    if p c then (matchClasses ps l).map (fun mr => (c :: mr.1, mr.2)) else none

/-- Left-to-right, non-overlapping regex scan, as `re.findall`: at each
position try `step`; on a match emit its capture and resume after the match,
otherwise advance one character.  `fuel` bounds recursion (callers pass the
list length; every match of this code base consumes at least one character, so
the fuel is never exhausted before the input is). -/
def scanAll {α : Type} (step : List Char → Option (α × List Char)) :
    Nat → List Char → List α
  | 0, _ => []
  | _, [] => []
  | fuel + 1, c :: rest =>
    match step (c :: rest) with
    | some (a, rem) => a :: scanAll step fuel rem
    | none => scanAll step fuel rest

/-- First-occurrence deduplication, modelling Python `list(set(xs))` (whose
order is implementation-defined; no proved property depends on it). -/
def dedupFirst (l : List String) : List String := l.eraseDups

/-! ## Datetimes

`DT` is a Python `datetime` as this program builds them (second = 0).
`dtDays` counts civil days from 0000-03-01 (Hinnant's civil-from-days
algorithm); `dtMinutes` is the absolute minute count used for all datetime
subtraction in the embedding. -/

structure DT where
  year : Nat
  month : Nat
  day : Nat
  hour : Nat
  minute : Nat
  deriving Repr, DecidableEq

def isLeapYear (y : Nat) : Bool := y % 4 == 0 && (y % 100 != 0 || y % 400 == 0)

def daysInMonth (y m : Nat) : Nat :=
  if m == 2 then (if isLeapYear y then 29 else 28)
  else if m == 4 || m == 6 || m == 9 || m == 11 then 30
  else 31

/-- Civil days since 0000-03-01. -/
def daysFromCivil (y m d : Nat) : Nat :=
  let yAdj := if m ≤ 2 then y - 1 else y
  let era := yAdj / 400
  let yoe := yAdj % 400
  let mp := (m + 9) % 12
  let doy := (153 * mp + 2) / 5 + (d - 1)
  let doe := yoe * 365 + yoe / 4 - yoe / 100 + doy
  era * 146097 + doe

def dtDays (t : DT) : Nat := daysFromCivil t.year t.month t.day

/-- Absolute minutes of a datetime; datetime subtraction is a difference of
these (exact: the program's datetimes are whole minutes). -/
def dtMinutes (t : DT) : Int := (dtDays t * 1440 + t.hour * 60 + t.minute : Nat)

/-- Python `datetime.weekday()`: Monday = 0 … Sunday = 6. -/
def dtWeekday (t : DT) : Nat := (dtDays t + 2) % 7

/-- Python `datetime(y, m, d, h, mi)`: `none` models the `ValueError` the
constructor raises on an out-of-range field (always caught by this program). -/
def mkDatetime (y m d h mi : Nat) : Option DT :=
  if 1 ≤ y && y ≤ 9999 && 1 ≤ m && m ≤ 12 && 1 ≤ d && d ≤ daysInMonth y m
      && h ≤ 23 && mi ≤ 59 then
    some ⟨y, m, d, h, mi⟩
  else none

def weekdayName (w : Nat) : String :=
  match w with
  | 0 => "Monday" | 1 => "Tuesday" | 2 => "Wednesday" | 3 => "Thursday"
  | 4 => "Friday" | 5 => "Saturday" | _ => "Sunday"

def pad2 (n : Nat) : String := if n < 10 then "0" ++ toString n else toString n

def pad4 (n : Nat) : String :=
  if n < 10 then "000" ++ toString n
  else if n < 100 then "00" ++ toString n
  else if n < 1000 then "0" ++ toString n
  else toString n

/-- `strftime("%H:%M")`. -/
def fmtHM (t : DT) : String := pad2 t.hour ++ ":" ++ pad2 t.minute

/-- `strftime("%Y-%m-%d %H:%M")`. -/
def fmtYMDHM (t : DT) : String :=
  pad4 t.year ++ "-" ++ pad2 t.month ++ "-" ++ pad2 t.day ++ " " ++ fmtHM t

/-- Rendering of the float `minutes/60` with one decimal, for Python
`f"{hours:.1f}"` on a non-negative hour quantity (rounding of the exact value
to the nearest tenth; the tie-breaking direction of CPython's float formatting
is immaterial to every property proved here). -/
def fmtHoursTenths (minutes : Nat) : String :=
  let tenths := (minutes * 10 + 30) / 60
  toString (tenths / 10) ++ "." ++ toString (tenths % 10)

/-! ## Data model: findings, segments, parsed documents

`Finding` is one error/warning dict.  `VResult` is the dict a standard
validator returns: `errors` and `warnings` are always present; `success`,
`details` and `validator` become `Option` fields because several return paths
omit those keys (`none` = key absent in the Python dict). -/

structure Finding where
  segment : String
  message : String
  details : String
  suggestion : String
  deriving Repr, DecidableEq

structure VResult where
  errors : List Finding
  warnings : List Finding
  success : Option Bool := none
  details : Option String := none
  validator : Option String := none
  deriving Repr, DecidableEq

structure Segment where
  tag : String
  elements : List String
  line_number : Nat
  raw_content : String
  deriving Repr, DecidableEq

/-- A transaction-set dict.  The Python dict key for the first field is
`'type'`, a Lean keyword, hence the field name `ts_type`. -/
structure TransactionSet where
  ts_type : String
  control_number : String
  segments : List Segment
  deriving Repr, DecidableEq

/-- The `control_numbers` dict: at most the keys `ISA`, `GS`, `ST` ever
appear, each written last-seen-wins. -/
structure ControlNumbers where
  isa : Option String := none
  gs : Option String := none
  st : Option String := none
  deriving Repr, DecidableEq

/-- The `metadata` dict.  `parsed_at` holds the wall-clock reading passed for
`datetime.now().isoformat()` (modelled as the raw minute count: two runs are
indistinguishable exactly when their clock readings are). -/
structure Metadata where
  parsed_at : Int
  total_lines : Nat
  file_size : Nat
  parsing_failed : Bool := false
  deriving Repr, DecidableEq

structure ParsedDoc where
  content : String
  segments : List Segment := []
  transaction_sets : List TransactionSet := []
  control_numbers : ControlNumbers := {}
  metadata : Metadata
  error : Option String := none
  deriving Repr, DecidableEq

/-! ## Segment parser (`utils/file_handler.py`) -/

/-- `FileHandler._parse_segment`.  The Python body's `try` never fails (all
operations used are total), so the `except: return None` branch is
unreachable and the result is always a segment. -/
def parse_segment (line : String) (line_num : Nat) : Segment :=
  if strContainsChar line '*' then
    let parts := strSplitOn '*' line
    { tag := parts.headD "", elements := parts.tail,
      line_number := line_num, raw_content := line }
  else if strContainsChar line '|' then
    let parts := strSplitOn '|' line
    { tag := parts.headD "", elements := parts.tail,
      line_number := line_num, raw_content := line }
  else
    -- fallback: `tag = line[:3] if len(line) >= 3 else line` (take 3 covers
    -- both arms), `elements = [line[3:]] if len(line) > 3 else []`
    { tag := ⟨line.data.take 3⟩,
      elements := if line.data.length > 3 then [⟨line.data.drop 3⟩] else [],
      line_number := line_num, raw_content := line }

/-- `FileHandler._extract_control_numbers`.  For tags other than
`ISA`/`GS`/`ST`, or for segments with too few elements, it changes nothing. -/
def extract_control_numbers (seg : Segment) (c : ControlNumbers) : ControlNumbers :=
  if seg.tag == "ISA" && seg.elements.length ≥ 13 then
    { c with isa := some (seg.elements.getD 12 "") }
  else if seg.tag == "GS" && seg.elements.length ≥ 6 then
    { c with gs := some (seg.elements.getD 5 "") }
  else if seg.tag == "ST" && seg.elements.length ≥ 2 then
    { c with st := some (seg.elements.getD 1 "") }
  else c

/-- Loop state of `parse_edi_file`: the flat segment list, the transaction
sets already opened before the current one, the currently open one, and the
control-number dict. -/
structure ParseState where
  segments : List Segment
  closed : List TransactionSet
  current : Option TransactionSet
  ctrl : ControlNumbers
  deriving Repr, DecidableEq

/-- One iteration of the `for line_num, line in enumerate(lines, 1)` loop of
`FileHandler.parse_edi_file`. -/
def parseStep (st : ParseState) (ln : Nat × String) : ParseState :=
  let line := strTrim ln.2
  if line.data.isEmpty then st
  else
    let seg := parse_segment line ln.1
    let st := { st with segments := st.segments ++ [seg] }
    let st :=
      if seg.tag == "ST" then
        -- a new transaction set implicitly closes the prior open one;
        -- `'type': elements[1] if len(elements) > 1 else 'Unknown'`,
        -- `'control_number': elements[2] if len(elements) > 2 else ''`
        { st with closed := st.closed ++ st.current.toList,
                  current := some { ts_type := seg.elements.getD 1 "Unknown",
                                    control_number := seg.elements.getD 2 "",
                                    segments := [] } }
      else st
    let st :=
      match st.current with
      | some ts =>
        { st with current := some { ts with segments := ts.segments ++ [seg] } }
      | none => st
    -- the `tag in ['ISA','GS','ST']` guard is re-checked inside
    -- `extract_control_numbers`, which is the identity for other tags
    { st with ctrl := extract_control_numbers seg st.ctrl }

/-- `FileHandler.parse_edi_file`.  `now` is the `datetime.now()` reading taken
for `metadata['parsed_at']`.  The body's `try` never fails (every operation
used is total for every input string), so the `except` branch
(`parse_failure_doc` below) is unreachable and `error` is always absent. -/
def parse_edi_file (now : Int) (content : String) : ParsedDoc :=
  let lines := strSplitOn '\n' content
  let numbered := lines.enum.map (fun p => (p.1 + 1, p.2))
  let fin := numbered.foldl parseStep ⟨[], [], none, {}⟩
  { content := content,
    segments := fin.segments,
    transaction_sets := fin.closed ++ fin.current.toList,
    control_numbers := fin.ctrl,
    metadata := { parsed_at := now,
                  total_lines := lines.length,
                  file_size := content.data.length },
    error := none }

/-- The `except Exception` branch of `parse_edi_file` (lines 61-69): the
degraded document carrying only the raw content, an error message and a
minimal metadata dict.  Unreachable (see `parse_edi_file`), kept to model the
contract's failure shape; the absent list keys are modelled as empty. -/
def parse_failure_doc (now : Int) (content : String) (msg : String) : ParsedDoc :=
  { content := content,
    metadata := { parsed_at := now, total_lines := 0, file_size := 0,
                  parsing_failed := true },
    error := some ("Failed to parse EDI file: " ++ msg) }

/-! ## Sanity checks of the datetime embedding -/

example : daysFromCivil 1970 1 1 = 719468 := by decide
example : dtWeekday ⟨1970, 1, 1, 0, 0⟩ = 3 := by decide
example : dtWeekday ⟨2024, 3, 16, 13, 0⟩ = 5 := by decide

example : (parse_edi_file 0 "ST*856*0001").segments.length = 1 := by decide
example : (parse_edi_file 0 "ISA*a*b\n\n GS*x \nfoo").segments.map Segment.tag
    = ["ISA", "GS", "foo"] := by decide
example : (parse_edi_file 0 "AB").segments.map Segment.elements = [[]] := by decide

/-! ## Claims about the parser -/

/-- C3: for every input string (the empty string, binary garbage and
mismatched-delimiter lines included) `parse_edi_file` is total, returns a
document that carries the full raw content, and never takes the degraded
error branch: every operation in the body is defined on every input, so no
exception can arise and the `error` key is always absent. -/
theorem C3_parse_never_fails (now : Int) (content : String) :
    (parse_edi_file now content).error = none ∧
    (parse_edi_file now content).content = content :=
  ⟨rfl, rfl⟩

/-- C5 (amended): parsing is deterministic up to the parse timestamp — two
parses of the same text, at any two clock readings, agree on the content, the
segments, the transaction sets, the control numbers, the error field and the
line/size metadata; only `metadata.parsed_at` (the `datetime.now()` capture)
follows the clock. -/
theorem C5_parse_deterministic_up_to_timestamp (t1 t2 : Int) (s : String) :
    (parse_edi_file t1 s).content = (parse_edi_file t2 s).content ∧
    (parse_edi_file t1 s).segments = (parse_edi_file t2 s).segments ∧
    (parse_edi_file t1 s).transaction_sets = (parse_edi_file t2 s).transaction_sets ∧
    (parse_edi_file t1 s).control_numbers = (parse_edi_file t2 s).control_numbers ∧
    (parse_edi_file t1 s).metadata.total_lines = (parse_edi_file t2 s).metadata.total_lines ∧
    (parse_edi_file t1 s).metadata.file_size = (parse_edi_file t2 s).metadata.file_size ∧
    (parse_edi_file t1 s).error = (parse_edi_file t2 s).error :=
  ⟨rfl, rfl, rfl, rfl, rfl, rfl, rfl⟩

/-- C5 counterexample: the claim as stated ("all fields of the two resulting
documents, including metadata, are equal") is false — two parses of the same
text at the two successive wall-clock readings differ in
`metadata.parsed_at`, so the whole documents are unequal. -/
theorem C5_counterexample_parsed_at_differs :
    parse_edi_file 0 "ISA*00*TEST" ≠ parse_edi_file 1 "ISA*00*TEST" ∧
    (parse_edi_file 0 "ISA*00*TEST").metadata.parsed_at ≠
      (parse_edi_file 1 "ISA*00*TEST").metadata.parsed_at := by
  decide

/-- C6: evaluation of the parser at the failing input `ST*856*0001`.  The
claim (type_code = ST element 1 = "856", control_number = ST element 2 =
"0001") describes the intent; the code stores `elements[1]` (the control
number "0001") as the transaction set's type and `elements[2]` (absent, so
"") as its control number, while its own control-number extraction for the
very same segment records "0001" as the ST control number. -/
theorem C6_st_off_by_one_eval :
    ((parse_edi_file 0 "ST*856*0001").transaction_sets.map
      (fun ts => (ts.ts_type, ts.control_number))) = [("0001", "")] ∧
    (parse_edi_file 0 "ST*856*0001").control_numbers.st = some "0001" := by
  decide

/-! ## Shared validator configuration

The configuration dict built in `app.py` (`main`): every validator receives
the same record.  The Python-side `config.get(key, default)` calls never see a
missing key for these fields, so they are plain record fields here. -/

structure Config where
  vendor_id : String
  shipment_id : String
  state_code : String
  state_name : String
  deriving Repr, DecidableEq

/-! ## GSTIN validator (`validators/gstin_validator.py`) -/

namespace GSTINValidator

/-- The 38-entry Indian state-code table (`self.state_codes`). -/
def state_codes : List (String × String) :=
  [("01", "Jammu and Kashmir"), ("02", "Himachal Pradesh"), ("03", "Punjab"),
   ("04", "Chandigarh"), ("05", "Uttarakhand"), ("06", "Haryana"),
   ("07", "Delhi"), ("08", "Rajasthan"), ("09", "Uttar Pradesh"),
   ("10", "Bihar"), ("11", "Sikkim"), ("12", "Arunachal Pradesh"),
   ("13", "Nagaland"), ("14", "Manipur"), ("15", "Mizoram"),
   ("16", "Tripura"), ("17", "Meghalaya"), ("18", "Assam"),
   ("19", "West Bengal"), ("20", "Jharkhand"), ("21", "Odisha"),
   ("22", "Chhattisgarh"), ("23", "Madhya Pradesh"), ("24", "Gujarat"),
   ("25", "Daman and Diu"), ("26", "Dadra and Nagar Haveli"),
   ("27", "Maharashtra"), ("28", "Andhra Pradesh"), ("29", "Karnataka"),
   ("30", "Goa"), ("31", "Lakshadweep"), ("32", "Kerala"),
   ("33", "Tamil Nadu"), ("34", "Puducherry"), ("35", "Andaman and Nicobar Islands"),
   ("36", "Telangana"), ("37", "Andhra Pradesh"), ("38", "Ladakh")]

/-- The anchored regex `self.gstin_pattern` =
`^[0-9]{2}[A-Z]{5}[0-9]{4}[A-Z]{1}[1-9A-Z]{1}[Z]{1}[0-9A-Z]{1}$`:
exactly 15 characters, one class each. -/
def gstinPatternAccepts : List Char → Bool
  | [c0, c1, c2, c3, c4, c5, c6, c7, c8, c9, c10, c11, c12, c13, c14] =>
    c0.isDigit && c1.isDigit && c2.isUpper && c3.isUpper && c4.isUpper &&
    c5.isUpper && c6.isUpper && c7.isDigit && c8.isDigit && c9.isDigit &&
    c10.isDigit && c11.isUpper && isEntityChar c12 && c13 == 'Z' && isUpperDigit c14
  | _ => false

/-- `re.match(self.gstin_pattern, gstin)` as a Boolean. -/
def gstin_full_match (s : String) : Bool := gstinPatternAccepts s.data

/-- The PAN regex `^[A-Z]{5}[0-9]{4}[A-Z]{1}$` applied to `gstin[2:12]`. -/
def panPatternAccepts : List Char → Bool
  | [c0, c1, c2, c3, c4, c5, c6, c7, c8, c9] =>
    c0.isUpper && c1.isUpper && c2.isUpper && c3.isUpper && c4.isUpper &&
    c5.isDigit && c6.isDigit && c7.isDigit && c8.isDigit && c9.isUpper
  | _ => false

/-- `GSTINValidator._validate_gstin_checksum`: the placeholder check that
`gstin[14]` is alphanumeric.  An index out of range raises and is caught,
returning `False`; modelled by the `none` arm.  (Python `isalnum` on the
ASCII characters this program produces coincides with ASCII `isAlphanum`.) -/
def validate_gstin_checksum (gstin : String) : Bool :=
  match gstin.data.get? 14 with
  | some c => c.isAlphanum
  | none => false

/-- One match attempt of the `REF\*TJ\*([0-9]{2}[A-Z0-9]{13})` regex at the
head of `l`; on success returns the captured 15-character group and the rest
of the input after the match. -/
def tryRefTJ (l : List Char) : Option (String × List Char) :=
  match stripLit "REF*TJ*".data l with
  | none => none
  | some r =>
    match takeClass Char.isDigit 2 r with
    | none => none
    | some (d2, r2) =>
      match takeClass isUpperDigit 13 r2 with
      | none => none
      | some (a13, r3) => some (⟨d2 ++ a13⟩, r3)

/-- The character classes of the unanchored 15-character GSTIN-shape regex
used by `_extract_gstins` (a literal copy, in the source, of the body of
`self.gstin_pattern`). -/
def gstinClassList : List (Char → Bool) :=
  [Char.isDigit, Char.isDigit, Char.isUpper, Char.isUpper, Char.isUpper,
   Char.isUpper, Char.isUpper, Char.isDigit, Char.isDigit, Char.isDigit,
   Char.isDigit, Char.isUpper, isEntityChar, fun c => c == 'Z', isUpperDigit]

/-- One match attempt of the unanchored GSTIN-shape regex at the head of `l`. -/
def tryGstinShape (l : List Char) : Option (String × List Char) :=
  (matchClasses gstinClassList l).map (fun mr => (⟨mr.1⟩, mr.2))

/-- `GSTINValidator._extract_gstins`: the two `re.findall` passes, united and
deduplicated (`list(set(...))`, modelled first-occurrence). -/
def extract_gstins (content : String) : List String :=
  let l := content.data
  let refMatches := scanAll tryRefTJ l.length l
  let generalMatches := scanAll tryGstinShape l.length l
  dedupFirst (refMatches ++ generalMatches)

def invalid_format_error (g : String) : Finding :=
  { segment := "GSTIN",
    message := "Invalid GSTIN format: " ++ g,
    details := "GSTIN must be 15 characters: 2-digit state + 10-digit PAN + 1-digit entity + 1-digit check + Z",
    suggestion := "Verify GSTIN format and ensure all characters are correct" }

def invalid_state_error (sc : String) : Finding :=
  { segment := "GSTIN",
    message := "Invalid state code in GSTIN: " ++ sc,
    details := "State code " ++ sc ++ " is not a valid Indian state code",
    suggestion := "Use a valid Indian state code (01-38)" }

def state_mismatch_error (sc scName expected expectedName : String) : Finding :=
  { segment := "GSTIN",
    message := "GSTIN state code mismatch",
    details := "GSTIN state code " ++ sc ++ " (" ++ scName ++
      ") does not match selected state " ++ expected ++ " (" ++ expectedName ++ ")",
    suggestion := "Update GSTIN to use state code " ++ expected ++
      " or change state selection to " ++ scName }

def checksum_error (g : String) : Finding :=
  { segment := "GSTIN",
    message := "GSTIN checksum validation failed: " ++ g,
    details := "The GSTIN check digit does not match the calculated value",
    suggestion := "Verify the GSTIN number with the tax authority or recalculate the check digit" }

def pan_error (pan : String) : Finding :=
  { segment := "GSTIN",
    message := "Invalid PAN format within GSTIN: " ++ pan,
    details := "PAN portion of GSTIN must follow format: 5 letters + 4 digits + 1 letter",
    suggestion := "Verify the PAN number format within the GSTIN" }

def no_gstin_warning : Finding :=
  { segment := "GSTIN",
    message := "No GSTIN found in file",
    details := "Could not locate any GSTIN numbers in the EDI file",
    suggestion := "Ensure GSTIN is included in the appropriate segments (REF*TJ* or N1 segments)" }

/-- One iteration of the `for gstin in gstins` loop: the errors it appends
(`continue` after the format and unknown-state errors skips the remaining
checks; the mismatch/checksum/PAN checks are independent). -/
def process_gstin (expected_state_code state_name : String) (g : String) : List Finding :=
  if ¬ gstin_full_match g then [invalid_format_error g]
  else
    let sc : String := ⟨g.data.take 2⟩
    match state_codes.lookup sc with
    | none => [invalid_state_error sc]
    | some scName =>
      (if sc ≠ expected_state_code then
        [state_mismatch_error sc scName expected_state_code state_name]
       else [])
      ++ (if ¬ validate_gstin_checksum g then [checksum_error g] else [])
      ++ (let pan : String := ⟨(g.data.drop 2).take 10⟩
          if ¬ panPatternAccepts pan.data then [pan_error pan] else [])

/-- `GSTINValidator.validate`.  No warnings are produced after the
no-candidate early return; the `success`/`details` keys appear only on the
zero-error exit. -/
def validate (doc : ParsedDoc) (cfg : Config) : VResult :=
  let gstins := extract_gstins doc.content
  if gstins.isEmpty then
    { errors := [], warnings := [no_gstin_warning] }
  else
    let errors := gstins.flatMap (process_gstin cfg.state_code cfg.state_name)
    if errors.isEmpty then
      { errors := errors, warnings := [], success := some true,
        details := some ("GSTIN validation passed for " ++ toString gstins.length ++
          " GSTIN(s). State: " ++ cfg.state_name ++ " (" ++ cfg.state_code ++ ")") }
    else
      { errors := errors, warnings := [] }

/-- The synthetic finding of the `except Exception as e` branch of
`GSTINValidator.validate` (source lines 115-123). -/
def fault_finding (e : String) : Finding :=
  { segment := "VALIDATION",
    message := "GSTIN validation failed",
    details := "Error during validation: " ++ e,
    suggestion := "Check GSTIN format and ensure it follows Indian tax ID standards" }

/-- Result of `GSTINValidator.validate` when the body raises an unexpected
internal fault with message `e` after accumulating `errors`/`warnings`: the
handler appends one synthetic finding and returns. -/
def on_fault (errors warnings : List Finding) (e : String) : VResult :=
  { errors := errors ++ [fault_finding e], warnings := warnings }

end GSTINValidator

example : GSTINValidator.extract_gstins "REF*TJ*27ABCDE1234F1Z5" = ["27ABCDE1234F1Z5"] := by decide
example : GSTINValidator.extract_gstins "" = [] := by decide
example : GSTINValidator.gstin_full_match "27ABCDE1234F1Z5" = true := by decide
example : GSTINValidator.gstin_full_match "27ABCDE1234F1A5" = false := by decide
example : GSTINValidator.gstin_full_match "27ABCDE1234F1Z" = false := by decide

/-! ## EDI structure validator (`validators/edi_validator.py`)

Only the live body of `EDIValidator.validate` (lines 14-114) is modelled; the
code after its `except` block's `return` (lines 115-242) is unreachable. -/

namespace EDIValidator

def required_segments : List String := ["ISA", "GS", "ST", "BSN", "HL", "SE", "GE", "IEA"]

def no_content_error : Finding :=
  { segment := "FILE",
    message := "No file content found for validation",
    details := "Cannot validate empty or missing file content",
    suggestion := "Ensure file is properly uploaded and contains data" }

def missing_segments_error (missing : List String) : Finding :=
  { segment := "STRUCTURE",
    message := "Missing required EDI segments: " ++ String.intercalate ", " missing,
    details := "EDI file must contain all required segments for proper processing",
    suggestion := "Add missing segments: " ++ String.intercalate ", " missing }

def isa_fields_error (n : Nat) : Finding :=
  { segment := "ISA",
    message := "ISA segment has insufficient fields",
    details := "ISA segment has " ++ toString n ++ " fields, requires 16",
    suggestion := "Ensure ISA segment follows EDI X12 standard format" }

def vendor_id_warning (vendor_id : String) : Finding :=
  { segment := "CONFIG",
    message := "Vendor ID format may not follow Walmart India standard",
    details := "Vendor ID \"" ++ vendor_id ++ "\" does not start with WMTIN-",
    suggestion := "Verify vendor ID format with Walmart India standards" }

def terminator_warning : Finding :=
  { segment := "FILE",
    message := "EDI file should end with segment terminator (~)",
    details := "File does not end with proper EDI segment terminator",
    suggestion := "Add ~ at the end of your EDI file" }

/-- `EDIValidator.validate`: the `success` key is present on every return
path and always equals "no errors". -/
def validate (doc : ParsedDoc) (cfg : Config) : VResult :=
  let file_content := doc.content
  if file_content.data.isEmpty then
    { validator := some "EDI Structure Validator",
      errors := [no_content_error], warnings := [],
      success := some false,
      details := some "Validation failed - no content" }
  else
    let missing := required_segments.filter
      (fun seg => ¬ strHasSubstr file_content (seg ++ "*"))
    let missingErrors := if missing.isEmpty then [] else [missing_segments_error missing]
    let isaErrors :=
      if strHasSubstr file_content "ISA*" then
        match (strSplitOn '\n' file_content).filter
            (fun line => strStartsWith (strTrim line) "ISA*") with
        | [] => []
        | isa0 :: _ =>
          let isa_parts := strSplitOn '*' isa0
          if isa_parts.length < 16 then [isa_fields_error isa_parts.length] else []
      else []
    let vendorWarnings :=
      if ¬ cfg.vendor_id.data.isEmpty && ¬ strStartsWith cfg.vendor_id "WMTIN-" then
        [vendor_id_warning cfg.vendor_id]
      else []
    let terminatorWarnings :=
      if ¬ strEndsWith (strTrim file_content) "~" then [terminator_warning] else []
    let errors := missingErrors ++ isaErrors
    let warnings := vendorWarnings ++ terminatorWarnings
    { validator := some "EDI Structure Validator",
      errors := errors, warnings := warnings,
      success := some errors.isEmpty,
      details := some ("EDI structure validation completed. Found " ++
        toString (required_segments.length - missing.length) ++ "/" ++
        toString required_segments.length ++ " required segments.") }

/-- The `except Exception as e` branch of `EDIValidator.validate` (lines
102-114): a fresh result with a single `SYSTEM`-segment error. -/
def on_fault (e : String) : VResult :=
  { validator := some "EDI Structure Validator",
    errors := [{ segment := "SYSTEM",
                 message := "Validation error: " ++ e,
                 details := "Internal validation error occurred",
                 suggestion := "Contact support if this error persists" }],
    warnings := [],
    success := some false,
    details := some ("Validation failed with error: " ++ e) }

end EDIValidator

example :
    (EDIValidator.validate (parse_edi_file 0 "") ⟨"V1", "S1", "27", "Maharashtra"⟩).errors.length = 1 := by
  decide
example :
    (EDIValidator.validate (parse_edi_file 0 "ISA*a*b*c*d*e*f*g*h*i*j*k*l*m*n*o\nGS*1\nST*856*0001\nBSN*x\nHL*1\nSE*2\nGE*1\nIEA*1~")
      ⟨"WMTIN-R", "S1", "27", "Maharashtra"⟩).errors.length = 0 := by
  decide
example :
    (EDIValidator.validate (parse_edi_file 0 "ISA*a*b\nGS*1\nST*856*0001\nBSN*x\nHL*1\nSE*2\nGE*1\nIEA*1~")
      ⟨"V1", "S1", "27", "Maharashtra"⟩).errors.length = 1 ∧
    (EDIValidator.validate (parse_edi_file 0 "ISA*a*b\nGS*1\nST*856*0001\nBSN*x\nHL*1\nSE*2\nGE*1\nIEA*1~")
      ⟨"V1", "S1", "27", "Maharashtra"⟩).warnings.length = 1 := by
  decide

/-! ## Product code validator (`validators/product_validator.py`) -/

namespace ProductValidator

/-- The keys of `self.product_database` (its values are display metadata the
validator never reads). -/
def product_database : List String :=
  ["12345678901234", "98765432109876", "11111111111111", "22222222222222"]

/-- `self.gtin_pattern` = `^[0-9]{14}$` under `re.match` (anchored). -/
def gtinPatternAccepts (s : String) : Bool :=
  s.data.length == 14 && s.data.all Char.isDigit

/-- `self.win_pattern` = `^(WIN|WM|55)[0-9]{8,12}$` under `re.match`: the
disjunction over the three alternatives captures the regex backtracking. -/
def winPatternAccepts (s : String) : Bool :=
  let tailOK := fun (tl : List Char) =>
    decide (8 ≤ tl.length) && decide (tl.length ≤ 12) && tl.all Char.isDigit
  (match stripLit "WIN".data s.data with | some r => tailOK r | none => false) ||
  (match stripLit "WM".data s.data with | some r => tailOK r | none => false) ||
  (match stripLit "55".data s.data with | some r => tailOK r | none => false)

/-- `ProductValidator._validate_gtin_checksum`: 14 digits, weights 3,1,3,…
over the first 13 (`enumerate` even index → 3), check digit =
`(10 - weighted_sum % 10) % 10`. -/
def validate_gtin_checksum (gtin : String) : Bool :=
  let l := gtin.data
  if l.length == 14 && l.all Char.isDigit then
    let check_digit := charVal (l.getD 13 '0')
    let digits := (l.take 13).map charVal
    let weighted_sum :=
      (digits.enum.map (fun p => p.2 * (if p.1 % 2 == 0 then 3 else 1))).sum
    let calculated_check := (10 - weighted_sum % 10) % 10
    check_digit == calculated_check
  else false

/-- `ProductValidator._validate_win`: re-checks the same WIN regex. -/
def validate_win (win : String) : Bool := winPatternAccepts win

/-- One match attempt of `LIN\*[0-9]+\*(?:UP|IN|UK|EN)\*([0-9A-Z]+)`. -/
def tryLinCode (l : List Char) : Option (String × List Char) :=
  match stripLit "LIN*".data l with
  | none => none
  | some r =>
    let seq := r.span Char.isDigit
    if seq.1.isEmpty then none
    else
      match seq.2 with
      | '*' :: r2 =>
        if r2.take 2 == "UP".data || r2.take 2 == "IN".data ||
            r2.take 2 == "UK".data || r2.take 2 == "EN".data then
          match r2.drop 2 with
          | '*' :: r3 =>
            let code := r3.span isUpperDigit
            if code.1.isEmpty then none else some (⟨code.1⟩, code.2)
          | _ => none
        else none
      | _ => none

/-- One match attempt of the unanchored `([0-9]{14})`. -/
def try14Digits (l : List Char) : Option (String × List Char) :=
  match takeClass Char.isDigit 14 l with
  | some pr => some (⟨pr.1⟩, pr.2)
  | none => none

/-- `ProductValidator._extract_product_codes`: the `LIN` regex over the whole
content, the 14-digit regex per line containing `LIN*`/`UPC*`/`GTIN*`, then
`list(filter(None, set(...)))` (dedup modelled first-occurrence). -/
def extract_product_codes (content : String) : List String :=
  let l := content.data
  let lin := scanAll tryLinCode l.length l
  let gtins := ((strSplitOn '\n' content).filter
      (fun line => strHasSubstr line "LIN*" || strHasSubstr line "UPC*" ||
        strHasSubstr line "GTIN*")).flatMap
    (fun line => scanAll try14Digits line.data.length line.data)
  (dedupFirst (lin ++ gtins)).filter (fun s => ¬ s.data.isEmpty)

def no_codes_warning : Finding :=
  { segment := "PRODUCT",
    message := "No product codes found in file",
    details := "Could not locate any product identifiers (GTIN, UPC, WIN) in the EDI file",
    suggestion := "Ensure product codes are included in LIN segments or other appropriate locations" }

def gtin_checksum_error (code : String) : Finding :=
  { segment := "LIN",
    message := "GTIN checksum validation failed: " ++ code,
    details := "The GTIN check digit does not match the calculated value",
    suggestion := "Verify the GTIN number or recalculate the check digit" }

def not_in_database_error (code : String) : Finding :=
  { segment := "LIN",
    message := "Product code not found in database: " ++ code,
    details := "The GTIN is not registered in the Walmart master catalog",
    suggestion := "Register the product in Walmart Retail Link or verify the GTIN number" }

def invalid_win_error (code : String) : Finding :=
  { segment := "LIN",
    message := "Invalid Walmart Item Number: " ++ code,
    details := "WIN format is incorrect or not found in system",
    suggestion := "Verify WIN format and ensure it is registered with Walmart" }

def upc12_warning (code : String) : Finding :=
  { segment := "LIN",
    message := "UPC-12 format detected: " ++ code,
    details := "Consider using GTIN-14 format for better compatibility",
    suggestion := "Convert UPC-12 to GTIN-14 by padding with leading zeros" }

def invalid_format_error (code : String) : Finding :=
  { segment := "LIN",
    message := "Invalid product code format: " ++ code,
    details := "Product code does not match GTIN-14, UPC-12, or WIN format",
    suggestion := "Use valid product identifiers: GTIN-14 (14 digits) or WIN (Walmart Item Number)" }

def duplicate_codes_warning : Finding :=
  { segment := "LIN",
    message := "Duplicate product codes detected",
    details := "Some product codes appear multiple times in the shipment",
    suggestion := "Verify quantities and ensure each product line is correctly specified" }

/-- One iteration of the `for product_code in product_codes` loop:
(errors, warnings, validated-count increment). -/
def process_code (code : String) : List Finding × List Finding × Nat :=
  if gtinPatternAccepts code then
    if ¬ validate_gtin_checksum code then ([gtin_checksum_error code], [], 0)
    else if ¬ product_database.contains code then ([not_in_database_error code], [], 0)
    else ([], [], 1)
  else if winPatternAccepts code then
    if ¬ validate_win code then ([invalid_win_error code], [], 0)
    else ([], [], 1)
  else if code.data.length == 12 && code.data.all Char.isDigit then
    ([], [upc12_warning code], 1)
  else
    ([invalid_format_error code], [], 0)

def invalid_quantity_error (qty : Nat) : Finding :=
  { segment := "SN1",
    message := "Invalid quantity: " ++ toString qty,
    details := "Product quantity must be greater than zero",
    suggestion := "Correct the quantity value in SN1 segment" }

def large_quantity_warning (qty : Nat) : Finding :=
  { segment := "SN1",
    message := "Large quantity detected: " ++ toString qty,
    details := "Quantity seems unusually high",
    suggestion := "Verify the quantity is correct" }

def valid_uoms : List String := ["EA", "CS", "BX", "PK", "LB", "KG", "PC", "DZ"]

def uom_warning (uom : String) : Finding :=
  { segment := "SN1",
    message := "Uncommon unit of measure: " ++ uom,
    details := "Unit of measure " ++ uom ++ " may not be recognized",
    suggestion := "Consider using standard UOM codes: " ++ String.intercalate ", " valid_uoms }

/-- One match attempt of `SN1\*[0-9]+\*([0-9]+)\*([A-Z]{2,3})`:
(quantity group, unit-of-measure group). -/
def trySN1 (l : List Char) : Option ((String × String) × List Char) :=
  match stripLit "SN1*".data l with
  | none => none
  | some r =>
    let seq := r.span Char.isDigit
    if seq.1.isEmpty then none
    else
      match seq.2 with
      | '*' :: r2 =>
        let qty := r2.span Char.isDigit
        if qty.1.isEmpty then none
        else
          match qty.2 with
          | '*' :: r3 =>
            let uom := (r3.takeWhile Char.isUpper).take 3
            if 2 ≤ uom.length then some ((⟨qty.1⟩, ⟨uom⟩), r3.drop uom.length)
            else none
          | _ => none
      | _ => none

/-- `ProductValidator._validate_product_quantities`: per SN1 match, the
quantity error or large-quantity warning, then the unit-of-measure warning. -/
def validate_product_quantities (content : String) : List Finding × List Finding :=
  (scanAll trySN1 content.data.length content.data).foldl
    (fun acc m =>
      let qty_value := natOfDigits m.1.data
      let qtyErrs := if qty_value == 0 then [invalid_quantity_error qty_value] else []
      let qtyWarns :=
        if qty_value != 0 && qty_value > 10000 then [large_quantity_warning qty_value] else []
      let uomWarns := if ¬ valid_uoms.contains m.2 then [uom_warning m.2] else []
      (acc.1 ++ qtyErrs, acc.2 ++ qtyWarns ++ uomWarns))
    ([], [])

/-- `ProductValidator.validate` (its `config` argument is never read). -/
def validate (doc : ParsedDoc) (_cfg : Config) : VResult :=
  let content := doc.content
  let product_codes := extract_product_codes content
  if product_codes.isEmpty then
    { errors := [], warnings := [no_codes_warning] }
  else
    let loop := product_codes.foldl
      (fun (acc : List Finding × List Finding × Nat) code =>
        let r := process_code code
        (acc.1 ++ r.1, acc.2.1 ++ r.2.1, acc.2.2 + r.2.2))
      ([], [], 0)
    -- `set(product_codes)` vs the list: the extraction already deduplicated,
    -- so this warning can in fact never fire; translated as written
    let dupWarns :=
      if (dedupFirst product_codes).length != product_codes.length then
        [duplicate_codes_warning]
      else []
    let qres := validate_product_quantities content
    let errors := loop.1 ++ qres.1
    let warnings := loop.2.1 ++ dupWarns ++ qres.2
    if errors.isEmpty then
      { errors := errors, warnings := warnings, success := some true,
        details := some ("Product validation passed for " ++ toString loop.2.2 ++
          " product(s) out of " ++ toString product_codes.length ++ " total codes found") }
    else
      { errors := errors, warnings := warnings }

/-- The synthetic finding of the `except Exception as e` branch of
`ProductValidator.validate` (lines 127-133). -/
def fault_finding (e : String) : Finding :=
  { segment := "VALIDATION",
    message := "Product validation failed",
    details := "Error during validation: " ++ e,
    suggestion := "Check product code format and ensure they follow GTIN or WIN standards" }

/-- Result of `ProductValidator.validate` when the body raises with message
`e` after accumulating `errors`/`warnings`. -/
def on_fault (errors warnings : List Finding) (e : String) : VResult :=
  { errors := errors ++ [fault_finding e], warnings := warnings }

end ProductValidator

example : ProductValidator.validate_gtin_checksum "00012345678905" = true := by decide
example : ProductValidator.validate_gtin_checksum "00012345678904" = false := by decide
example : ProductValidator.extract_product_codes "LIN*1*UP*12345678901234" = ["12345678901234"] := by decide
example :
    (ProductValidator.validate (parse_edi_file 0 "LIN*1*UP*12345678901234")
      ⟨"V", "S", "27", "Maharashtra"⟩).errors =
      [ProductValidator.gtin_checksum_error "12345678901234"] := by decide
example :
    (ProductValidator.validate (parse_edi_file 0 "LIN*1*UP*00012345678905")
      ⟨"V", "S", "27", "Maharashtra"⟩).errors =
      [ProductValidator.not_in_database_error "00012345678905"] := by decide

/-! ## ASN timing validator (`validators/timing_validator.py`)

All comparisons of `hours_until_ship = (ship - now).total_seconds()/3600`
(a float that is exact on this program's whole-minute datetimes) against the
integer thresholds 24/0/12/1/72/48 are carried out in whole minutes: the
difference is `m` minutes, and `m/60 > h ↔ m > 60·h`. -/

namespace TimingValidator

/-- The `dates` dict of `_extract_dates`: one optional entry per DTM
qualifier (`011`, `017`, `137`). -/
structure Dates where
  ship_date : Option DT := none
  delivery_date : Option DT := none
  creation_date : Option DT := none
  deriving Repr, DecidableEq

/-- Python `if not dates:` — the dict is empty iff no qualifier produced a
valid datetime. -/
def Dates.isEmpty (d : Dates) : Bool :=
  d.ship_date.isNone && d.delivery_date.isNone && d.creation_date.isNone

/-- One match attempt of `DTM\*<q>\*(\d{8})\*?(\d{4})?`: the date group and
the (possibly empty) time group.  The optional `\*` is consumed when present;
the time group matches only when four digits follow.  (Python `\d` also
covers non-ASCII Unicode digits; modelled ASCII, which covers EDI data.) -/
def tryDTM (q : String) (l : List Char) : Option ((String × String) × List Char) :=
  match stripLit ("DTM*" ++ q ++ "*").data l with
  | none => none
  | some r =>
    match takeClass Char.isDigit 8 r with
    | none => none
    | some pr =>
      let r2 := match pr.2 with
        | '*' :: rest => rest
        | other => other
      match takeClass Char.isDigit 4 r2 with
      | some t4 => some ((⟨pr.1⟩, ⟨t4.1⟩), t4.2)
      | none => some ((⟨pr.1⟩, ""), r2)

/-- The `try` body of the per-match date parse: YYYYMMDD plus HHMM (noon when
the time group is empty); `none` models the caught `ValueError`. -/
def parseDTMMatch (m : String × String) : Option DT :=
  let ds := m.1.data
  let year := natOfDigits (ds.take 4)
  let month := natOfDigits ((ds.drop 4).take 2)
  let day := natOfDigits ((ds.drop 6).take 2)
  if m.2.data.isEmpty then mkDatetime year month day 12 0
  else mkDatetime year month day (natOfDigits (m.2.data.take 2)) (natOfDigits (m.2.data.drop 2))

/-- The `for date_str, time_str in matches` loop writes
`dates[date_type]` per valid match, so the last valid match wins. -/
def lastValid (ms : List (String × String)) : Option DT :=
  ms.foldl (fun acc m => match parseDTMMatch m with | some t => some t | none => acc) none

/-- `TimingValidator._extract_dates`. -/
def extract_dates (content : String) : Dates :=
  let scan := fun (q : String) => scanAll (tryDTM q) content.data.length content.data
  { ship_date := lastValid (scan "011"),
    delivery_date := lastValid (scan "017"),
    creation_date := lastValid (scan "137") }

def no_dates_warning : Finding :=
  { segment := "TIMING",
    message := "No dates found in ASN",
    details := "Could not locate shipment dates in the EDI file",
    suggestion := "Ensure DTM segments include ship date and delivery date" }

def too_early_error (m : Int) : Finding :=
  { segment := "DTM",
    message := "ASN submitted too early (" ++ fmtHoursTenths m.toNat ++ " hours before shipping)",
    details := "ASN should be submitted between 0-24 hours before shipping",
    suggestion := "Submit ASN closer to ship date (within 24 hours)" }

def after_ship_error (m : Int) : Finding :=
  { segment := "DTM",
    message := "ASN submitted after ship date (" ++ fmtHoursTenths m.natAbs ++ " hours late)",
    details := "ASN must be submitted before the actual shipment",
    suggestion := "Submit ASN before shipping or update ship date" }

def very_close_warning (m : Int) : Finding :=
  { segment := "DTM",
    message := "ASN submitted very close to ship time (" ++ fmtHoursTenths m.toNat ++ " hours)",
    details := "This may not provide sufficient processing time",
    suggestion := "Consider submitting ASN earlier for better processing" }

def above_optimal_warning (m : Int) : Finding :=
  { segment := "DTM",
    message := "ASN submitted " ++ fmtHoursTenths m.toNat ++ " hours before shipping",
    details := "While acceptable, optimal timing is around 12 hours",
    suggestion := "Consider submitting closer to optimal timing window" }

/-- The ship-date timing window rule (lines 41-77; `min_advance_hours = 0`,
`max_advance_hours = 24`, `optimal_advance_hours = 12`): (errors, warnings).
The "very close" warning arm is dead code given `min_advance_hours = 0`. -/
def ship_timing_check (nowMin : Int) (sd : DT) : List Finding × List Finding :=
  let m := dtMinutes sd - nowMin
  if m > 24 * 60 then ([too_early_error m], [])
  else if m < 0 * 60 then
    if m < 0 then ([after_ship_error m], []) else ([], [very_close_warning m])
  else if m > 12 * 60 then ([], [above_optimal_warning m])
  else ([], [])

def delivery_too_close_error (w : Int) : Finding :=
  { segment := "DTM",
    message := "Delivery date too close to ship date",
    details := "Only " ++ (if w < 0 then "-" ++ fmtHoursTenths w.natAbs else fmtHoursTenths w.toNat) ++
      " hours between ship and delivery",
    suggestion := "Allow sufficient transit time between ship and delivery dates" }

def long_window_warning (w : Int) : Finding :=
  { segment := "DTM",
    message := "Long delivery window (" ++ fmtHoursTenths w.toNat ++ " hours)",
    details := "Delivery date is more than 3 days after ship date",
    suggestion := "Verify delivery date is correct" }

/-- The delivery-window rule (lines 81-99): runs only when both the delivery
and ship dates are present. -/
def delivery_check (sd dd : DT) : List Finding × List Finding :=
  let w := dtMinutes dd - dtMinutes sd
  if w < 1 * 60 then ([delivery_too_close_error w], [])
  else if w > 72 * 60 then ([], [long_window_warning w])
  else ([], [])

def old_creation_warning (age : Int) : Finding :=
  { segment := "DTM",
    message := "ASN created " ++ fmtHoursTenths age.toNat ++ " hours ago",
    details := "This ASN was created more than 2 days ago",
    suggestion := "Consider creating fresh ASN closer to ship date" }

/-- The creation-age rule (lines 102-112). -/
def creation_check (nowMin : Int) (cd : DT) : List Finding :=
  let age := nowMin - dtMinutes cd
  if age > 48 * 60 then [old_creation_warning age] else []

def business_hours_warning (sd : DT) : Finding :=
  { segment := "DTM",
    message := "Ship time outside business hours (" ++ fmtHM sd ++ ")",
    details := "Shipping scheduled outside typical business hours (8 AM - 6 PM)",
    suggestion := "Consider scheduling shipment during business hours for better processing" }

/-- `TimingValidator._validate_business_hours`. -/
def validate_business_hours (sd : DT) : List Finding :=
  if sd.hour < 8 || sd.hour > 18 then [business_hours_warning sd] else []

def ship_weekend_warning (sd : DT) : Finding :=
  { segment := "DTM",
    message := "Ship date falls on " ++ weekdayName (dtWeekday sd),
    details := "Shipping scheduled on weekend",
    suggestion := "Verify weekend shipping arrangements with carrier" }

def delivery_weekend_warning (dd : DT) : Finding :=
  { segment := "DTM",
    message := "Delivery date falls on " ++ weekdayName (dtWeekday dd),
    details := "Delivery scheduled on weekend",
    suggestion := "Confirm weekend delivery is acceptable to receiver" }

/-- `TimingValidator._validate_business_days` (lines 198-222): one warning
per present date whose weekday is Saturday (5) or Sunday (6). -/
def validate_business_days (sd dd : Option DT) : List Finding :=
  (match sd with
   | some t => if dtWeekday t ≥ 5 then [ship_weekend_warning t] else []
   | none => []) ++
  (match dd with
   | some t => if dtWeekday t ≥ 5 then [delivery_weekend_warning t] else []
   | none => [])

/-- `TimingValidator.validate`: `now` is the `datetime.now()` reading, in
absolute minutes. -/
def validate (doc : ParsedDoc) (_cfg : Config) (nowMin : Int) : VResult :=
  let dates := extract_dates doc.content
  if dates.isEmpty then
    { errors := [], warnings := [no_dates_warning] }
  else
    let shipRes := match dates.ship_date with
      | some sd => ship_timing_check nowMin sd
      | none => ([], [])
    let delRes := match dates.delivery_date, dates.ship_date with
      | some dd, some sd => delivery_check sd dd
      | _, _ => ([], [])
    let creatWarns := match dates.creation_date with
      | some cd => creation_check nowMin cd
      | none => []
    let bhWarns := match dates.ship_date with
      | some sd => validate_business_hours sd
      | none => []
    let bdWarns :=
      if dates.ship_date.isSome || dates.delivery_date.isSome then
        validate_business_days dates.ship_date dates.delivery_date
      else []
    let errors := shipRes.1 ++ delRes.1
    let warnings := shipRes.2 ++ delRes.2 ++ creatWarns ++ bhWarns ++ bdWarns
    if errors.isEmpty then
      { errors := errors, warnings := warnings, success := some true,
        details := some ("ASN timing validation passed. Ship date: " ++
          (match dates.ship_date with | some sd => fmtYMDHM sd | none => "Not found")) }
    else
      { errors := errors, warnings := warnings }

/-- The synthetic finding of the `except Exception as e` branch of
`TimingValidator.validate` (lines 131-137). -/
def fault_finding (e : String) : Finding :=
  { segment := "VALIDATION",
    message := "ASN timing validation failed",
    details := "Error during validation: " ++ e,
    suggestion := "Check date formats and ensure DTM segments are properly formatted" }

/-- Result of `TimingValidator.validate` when the body raises with message
`e` after accumulating `errors`/`warnings`. -/
def on_fault (errors warnings : List Finding) (e : String) : VResult :=
  { errors := errors ++ [fault_finding e], warnings := warnings }

end TimingValidator

example :
    TimingValidator.extract_dates "DTM*011*20240316*1300" =
      { ship_date := some ⟨2024, 3, 16, 13, 0⟩ } := by decide
example :
    TimingValidator.extract_dates "DTM*011*20240316" =
      { ship_date := some ⟨2024, 3, 16, 12, 0⟩ } := by decide
example :
    TimingValidator.extract_dates "DTM*011*20241301*0900" = {} := by decide
example :
    (TimingValidator.validate (parse_edi_file 0 "DTM*011*20240316*1300")
      ⟨"V", "S", "27", "Maharashtra"⟩ (dtMinutes ⟨2024, 3, 15, 12, 0⟩)).errors =
      [TimingValidator.too_early_error 1500] := by decide

/-! ## AS2 certificate validator (`validators/certificate_validator.py`)

Certificate expiry arithmetic (`(expiry - now).days`, a `timedelta.days`,
i.e. a floor of the difference in days) is carried out on absolute minutes:
`days = (expiryMin - nowMin).fdiv 1440`. -/

namespace CertificateValidator

def trusted_roots : List String := ["walmart_root_ca", "verisign_root_ca", "digicert_root_ca"]

/-- One certificate-info dict.  Absent keys take the `get` defaults of the
validation code (`key_size` 0, `issuer` "", `key_usage` [],
`signature_algorithm` ""). -/
structure CertInfo where
  expiry_date : Option Int := none
  key_size : Nat := 0
  issuer : String := ""
  key_usage : List String := []
  signature_algorithm : String := ""
  source : String := ""
  deriving Repr, DecidableEq

/-- One match attempt of `CERT\*([A-Z0-9_]+)\*([0-9]{8})`. -/
def tryCert (l : List Char) : Option ((String × String) × List Char) :=
  match stripLit "CERT*".data l with
  | none => none
  | some r =>
    let nm := r.span (fun c => isUpperDigit c || c == '_')
    if nm.1.isEmpty then none
    else
      match nm.2 with
      | '*' :: r2 =>
        match takeClass Char.isDigit 8 r2 with
        | some d8 => some ((⟨nm.1⟩, ⟨d8.1⟩), d8.2)
        | none => none
      | _ => none

/-- Insert-or-overwrite into the `certificates` dict (Python dict semantics:
a repeated key keeps its first position, with the new value). -/
def upsert (k : String) (v : CertInfo) : List (String × CertInfo) → List (String × CertInfo)
  | [] => [(k, v)]
  | (k2, v2) :: rest =>
    if k2 == k then (k2, v) :: rest else (k2, v2) :: upsert k v rest

/-- `CertificateValidator._extract_certificates`: scan for `CERT` segments,
parse each expiry date (invalid dates are skipped by the caught
`ValueError`). -/
def extract_certificates (content : String) : List (String × CertInfo) :=
  (scanAll tryCert content.data.length content.data).foldl
    (fun acc m =>
      let ds := m.2.data
      match mkDatetime (natOfDigits (ds.take 4)) (natOfDigits ((ds.drop 4).take 2))
          (natOfDigits ((ds.drop 6).take 2)) 0 0 with
      | some t => upsert m.1 { expiry_date := some (dtMinutes t), source := "edi_content" } acc
      | none => acc)
    []

/-- `CertificateValidator._create_sample_certificates`: the three synthetic
demonstration certificates, with expiries 5, 90 and 365 days from `now`. -/
def create_sample_certificates (nowMin : Int) : List (String × CertInfo) :=
  [("vendor_signing_cert",
    { expiry_date := some (nowMin + 5 * 1440), key_size := 2048,
      issuer := "DigiCert Global Root CA",
      key_usage := ["digital_signature", "key_encipherment"],
      signature_algorithm := "SHA256withRSA", source := "sample" }),
   ("vendor_encryption_cert",
    { expiry_date := some (nowMin + 90 * 1440), key_size := 2048,
      issuer := "VeriSign Class 3 Public Primary CA",
      key_usage := ["key_encipherment", "data_encipherment"],
      signature_algorithm := "SHA256withRSA", source := "sample" }),
   ("walmart_public_cert",
    { expiry_date := some (nowMin + 365 * 1440), key_size := 4096,
      issuer := "Walmart Root CA",
      key_usage := ["digital_signature", "key_encipherment"],
      signature_algorithm := "SHA256withRSA", source := "sample" })]

def no_certs_warning : Finding :=
  { segment := "CERTIFICATE",
    message := "No AS2 certificates found",
    details := "Could not locate AS2 certificate information in the file or configuration",
    suggestion := "Ensure AS2 certificates are properly configured for secure transmission" }

def expired_error (nm : String) (days : Int) : Finding :=
  { segment := "CERTIFICATE",
    message := "Certificate expired: " ++ nm,
    details := "Certificate expired " ++ toString days.natAbs ++ " days ago",
    suggestion := "Renew the certificate immediately to avoid transmission failures" }

def expires_soon_error (nm : String) (days : Int) : Finding :=
  { segment := "CERTIFICATE",
    message := "Certificate expires soon: " ++ nm,
    details := "Certificate expires in " ++ toString days ++ " days",
    suggestion := "Renew the certificate urgently to prevent service disruption" }

def expiry_warning (nm : String) (days : Int) : Finding :=
  { segment := "CERTIFICATE",
    message := "Certificate expires in " ++ toString days ++ " days: " ++ nm,
    details := "Certificate expiring within warning period",
    suggestion := "Plan certificate renewal to avoid last-minute issues" }

def weak_key_warning (nm : String) (bits : Nat) : Finding :=
  { segment := "CERTIFICATE",
    message := "Weak key size: " ++ nm ++ " (" ++ toString bits ++ " bits)",
    details := "Key size " ++ toString bits ++ " is below recommended minimum of 2048 bits",
    suggestion := "Use certificates with at least 2048-bit keys for better security" }

def untrusted_issuer_warning (nm issuer : String) : Finding :=
  { segment := "CERTIFICATE",
    message := "Untrusted certificate issuer: " ++ nm,
    details := "Certificate issued by: " ++ issuer,
    suggestion := "Ensure certificate is issued by a trusted CA recognized by Walmart" }

def key_usage_warning (nm : String) : Finding :=
  { segment := "CERTIFICATE",
    message := "Certificate may not support digital signatures: " ++ nm,
    details := "Certificate key usage does not explicitly include digital signatures",
    suggestion := "Verify certificate supports required AS2 operations" }

def weak_alg_warning (nm alg : String) : Finding :=
  { segment := "CERTIFICATE",
    message := "Weak signature algorithm: " ++ nm,
    details := "Certificate uses " ++ alg ++ " which is considered weak",
    suggestion := "Use certificates with SHA-256 or stronger signature algorithms" }

/-- One iteration of the `for cert_name, cert_info in certificates.items()`
loop (`min_key_size = 2048`, warning at 30 days, critical at 7 days):
(errors, warnings). -/
def check_certificate (nowMin : Int) (nm : String) (ci : CertInfo) :
    List Finding × List Finding :=
  let expiryRes := match ci.expiry_date with
    | some expMin =>
      let days := (expMin - nowMin).fdiv 1440
      if days < 0 then ([expired_error nm days], [])
      else if days ≤ 7 then ([expires_soon_error nm days], [])
      else if days ≤ 30 then ([], [expiry_warning nm days])
      else ([], [])
    | none => ([], [])
  let keyWarns := if ci.key_size > 0 && ci.key_size < 2048 then [weak_key_warning nm ci.key_size] else []
  let issuerWarns :=
    if ¬ ci.issuer.data.isEmpty &&
        ¬ trusted_roots.any (fun root => strHasSubstr (strLower ci.issuer) root) then
      [untrusted_issuer_warning nm ci.issuer]
    else []
  let usageWarns :=
    if ¬ ci.key_usage.isEmpty && ¬ ci.key_usage.contains "digital_signature" then
      [key_usage_warning nm]
    else []
  let algWarns :=
    if ["md5", "sha1"].any (fun a => strHasSubstr (strLower ci.signature_algorithm) a) then
      [weak_alg_warning nm ci.signature_algorithm]
    else []
  (expiryRes.1, expiryRes.2 ++ keyWarns ++ issuerWarns ++ usageWarns ++ algWarns)

/-- `CertificateValidator._validate_as2_config`: the settings dict is
hard-coded (`compression` False, `encryption`/`signing`/`mdn_required`/
`mdn_signed` True), so no branch fires; translated as written. -/
def validate_as2_config : List Finding :=
  let encryption := true
  let signing := true
  let mdn_required := true
  let mdn_signed := true
  (if ¬ encryption then
    [{ segment := "AS2_CONFIG", message := "Encryption not enabled",
       details := "AS2 transmission without encryption may not meet security requirements",
       suggestion := "Enable AS2 encryption for secure data transmission" }]
   else []) ++
  (if ¬ signing then
    [{ segment := "AS2_CONFIG", message := "Digital signing not enabled",
       details := "AS2 transmission without digital signatures may not provide non-repudiation",
       suggestion := "Enable AS2 digital signing for message integrity" }]
   else []) ++
  (if ¬ mdn_required then
    [{ segment := "AS2_CONFIG", message := "MDN (Message Disposition Notification) not required",
       details := "Without MDN, delivery confirmation is not available",
       suggestion := "Enable MDN requirement for delivery confirmation" }]
   else if mdn_required && ¬ mdn_signed then
    [{ segment := "AS2_CONFIG", message := "MDN signing not enabled",
       details := "Unsigned MDNs may not provide reliable delivery confirmation",
       suggestion := "Enable MDN signing for secure delivery confirmation" }]
   else [])

/-- `CertificateValidator.validate`: when no certificates are found in the
content, the no-certificates warning is emitted and the three synthetic
sample certificates are validated instead. -/
def validate (doc : ParsedDoc) (_cfg : Config) (nowMin : Int) : VResult :=
  let found := extract_certificates doc.content
  let noCertWarns := if found.isEmpty then [no_certs_warning] else []
  let certificates := if found.isEmpty then create_sample_certificates nowMin else found
  let loop := certificates.foldl
    (fun (acc : List Finding × List Finding) kv =>
      let r := check_certificate nowMin kv.1 kv.2
      (acc.1 ++ r.1, acc.2 ++ r.2))
    ([], [])
  let errors := loop.1
  let warnings := noCertWarns ++ loop.2 ++ validate_as2_config
  if errors.isEmpty then
    { errors := errors, warnings := warnings, success := some true,
      details := some ("Certificate validation passed for " ++
        toString certificates.length ++ " certificate(s)") }
  else
    { errors := errors, warnings := warnings }

/-- The synthetic finding of the `except Exception as e` branch of
`CertificateValidator.validate` (lines 130-136). -/
def fault_finding (e : String) : Finding :=
  { segment := "VALIDATION",
    message := "Certificate validation failed",
    details := "Error during validation: " ++ e,
    suggestion := "Check AS2 certificate configuration and ensure certificates are accessible" }

/-- Result of `CertificateValidator.validate` when the body raises with
message `e` after accumulating `errors`/`warnings`. -/
def on_fault (errors warnings : List Finding) (e : String) : VResult :=
  { errors := errors ++ [fault_finding e], warnings := warnings }

end CertificateValidator

example :
    (CertificateValidator.validate (parse_edi_file 0 "") ⟨"V", "S", "27", "Maharashtra"⟩ 0).errors =
      [CertificateValidator.expires_soon_error "vendor_signing_cert" 5] := by decide
example :
    (CertificateValidator.validate (parse_edi_file 0 "") ⟨"V", "S", "27", "Maharashtra"⟩ 0).warnings.length = 5 := by decide
example :
    (CertificateValidator.validate (parse_edi_file 0 "CERT*MYCERT_1*20990101")
      ⟨"V", "S", "27", "Maharashtra"⟩ (dtMinutes ⟨2024, 1, 1, 0, 0⟩)).success = some true := by decide

/-! ## Orchestrator (`validate_file` and `detect_shipment_type` in `app.py`)

The cold-chain validator's result is an input of the embedding: its
computation is external (mocked network fetch, random sensor data, a pickled
ML model) and the orchestrator treats its dict opaquely.  What matters for
aggregation is its shape: it has `blocking_issues`/`warnings`/`success`/
`overall_status` keys but no `errors` key, so `get('errors', [])` yields `[]`
and it can never contribute to `total_errors`. -/

def coldchain_keywords : List String :=
  ["frozen", "fresh", "refrigerat", "temperature", "cold", "chilled",
   "dairy", "meat", "fish", "seafood", "produce", "vegetable", "fruit",
   "pharmaceutical", "vaccine", "medical", "biotech", "pharma",
   "ice cream", "yogurt", "milk", "cheese", "beef", "chicken", "pork",
   "temp controlled", "cold chain", "cold storage", "reefer",
   "controlled temperature", "perishable", "frozen food"]

def medical_codes : List String := ["pharma", "med", "drug", "vaccine", "bio"]

/-- The `detected_modules` dict. -/
structure Modules where
  vendorladon : Bool := true
  coldchain : Bool := false
  deriving Repr, DecidableEq

/-- `detect_shipment_type`: VendorLadon is always active; ColdChain activates
when any keyword or medical code occurs in the lowercased content. -/
def detect_shipment_type (content : String) : Modules :=
  let lower := strLower content
  { vendorladon := true,
    coldchain := coldchain_keywords.any (fun k => strHasSubstr lower k) ||
      medical_codes.any (fun k => strHasSubstr lower k) }

/-- The cold-chain result dict, restricted to the keys the orchestrator or
the display layer reads; the `sensor_health`/`document_compliance`/
`spoilage_risk` payloads are never read by the orchestrator and are omitted.
Note the warnings are plain strings (not Finding dicts) and there is no
`errors` key. -/
structure CCResult where
  blocking_issues : List String := []
  warnings : List String := []
  success : Bool := false
  overall_status : String := "PENDING"
  deriving Repr, DecidableEq

/-- One entry of the `results['validations']` dict: a standard validator's
dict or the cold-chain dict. -/
inductive StepResult where
  | std : VResult → StepResult
  | cold : CCResult → StepResult
  deriving Repr, DecidableEq

/-- `validation_result.get('errors', [])`: the cold-chain dict has no
`errors` key. -/
def StepResult.errorsOf : StepResult → List Finding
  | .std r => r.errors
  | .cold _ => []

/-- `len(validation_result.get('warnings', []))`. -/
def StepResult.warningsLen : StepResult → Nat
  | .std r => r.warnings.length
  | .cold r => r.warnings.length

/-- Fault injection: `some e` means the named validator's `try` body raised
an unexpected exception with message `e` at its start (so its own `except`
handler runs on empty accumulators); `none` is the normal run. -/
structure Faults where
  edi : Option String := none
  gstin : Option String := none
  products : Option String := none
  timing : Option String := none
  certificates : Option String := none
  deriving Repr, DecidableEq

/-- The fixed pipeline order built in `validate_file` from the detected
modules. -/
def pipeline_keys (m : Modules) : List String :=
  (if m.vendorladon then ["edi", "gstin", "products", "timing", "certificates"] else []) ++
  (if m.coldchain then ["coldchain"] else [])

/-- Dispatch of `validator.validate(parsed_data, config)` by pipeline key. -/
def run_validator (key : String) (faults : Faults) (doc : ParsedDoc) (cfg : Config)
    (nowMin : Int) (cc : CCResult) : StepResult :=
  if key == "edi" then
    .std (match faults.edi with
      | some e => EDIValidator.on_fault e
      | none => EDIValidator.validate doc cfg)
  else if key == "gstin" then
    .std (match faults.gstin with
      | some e => GSTINValidator.on_fault [] [] e
      | none => GSTINValidator.validate doc cfg)
  else if key == "products" then
    .std (match faults.products with
      | some e => ProductValidator.on_fault [] [] e
      | none => ProductValidator.validate doc cfg)
  else if key == "timing" then
    .std (match faults.timing with
      | some e => TimingValidator.on_fault [] [] e
      | none => TimingValidator.validate doc cfg nowMin)
  else if key == "certificates" then
    .std (match faults.certificates with
      | some e => CertificateValidator.on_fault [] [] e
      | none => CertificateValidator.validate doc cfg nowMin)
  else
    .cold cc

/-- The `results['summary']` dict.  `processing_time` (a rendered wall-clock
duration) is a pure clock effect and is left outside the embedding. -/
structure Summary where
  total_errors : Nat
  total_warnings : Nat
  total_validations : Nat
  is_ready : Bool
  deriving Repr, DecidableEq

/-- The aggregate report (`results`).  `file_info` (upload name/size/UI
metadata) is left outside the embedding. -/
structure Report where
  config : Config
  modules : Modules
  validations : List (String × StepResult)
  summary : Summary
  deriving Repr, DecidableEq

/-- `validate_file` (app.py lines 513-640, the orchestration core): parse,
run the pipeline in order, aggregate.  The Python loop accumulates
`total_errors`/`total_warnings` incrementally; the map-and-sum below is the
same fold.  `is_ready` is set after the loop as `total_errors == 0`. -/
def validate_file (faults : Faults) (content : String) (cfg : Config)
    (modules : Modules) (nowMin : Int) (cc : CCResult) : Report :=
  let parsed := parse_edi_file nowMin content
  let validations := (pipeline_keys modules).map
    (fun k => (k, run_validator k faults parsed cfg nowMin cc))
  let total_errors := (validations.map (fun kv => kv.2.errorsOf.length)).sum
  let total_warnings := (validations.map (fun kv => kv.2.warningsLen)).sum
  { config := cfg, modules := modules, validations := validations,
    summary := { total_errors := total_errors,
                 total_warnings := total_warnings,
                 total_validations := validations.length,
                 is_ready := total_errors == 0 } }

/-- A full fault-free run as the UI triggers it: module detection on the
content, then `validate_file`. -/
def run_upload (content : String) (cfg : Config) (nowMin : Int) (cc : CCResult) : Report :=
  validate_file {} content cfg (detect_shipment_type content) nowMin cc

example :
    (run_upload "" ⟨"WMTIN-V", "S", "27", "Maharashtra"⟩ 0 {}).summary.total_errors = 2 := by
  decide
example :
    (run_upload "" ⟨"WMTIN-V", "S", "27", "Maharashtra"⟩ 0 {}).summary.is_ready = false := by
  decide

/-! ## Claims about the validators and the orchestrator -/

/-- C1: for every run (any content, configuration, clock reading, detected
modules, injected validator faults and cold-chain outcome), the report's
`is_ready` flag is true iff the sum of error findings over all validators
that were run is zero; `summary.total_errors` is exactly that sum, and
warnings never enter the readiness computation. -/
theorem C1_is_ready_iff_zero_errors (faults : Faults) (content : String)
    (cfg : Config) (modules : Modules) (nowMin : Int) (cc : CCResult) :
    ((validate_file faults content cfg modules nowMin cc).summary.is_ready = true ↔
      (((validate_file faults content cfg modules nowMin cc).validations.map
        (fun kv => kv.2.errorsOf.length)).sum = 0)) ∧
    (validate_file faults content cfg modules nowMin cc).summary.total_errors =
      ((validate_file faults content cfg modules nowMin cc).validations.map
        (fun kv => kv.2.errorsOf.length)).sum := by
  refine ⟨?_, rfl⟩
  simp [validate_file]

/-- Mapping the key out of a key-tagged map recovers the key list. -/
theorem map_fst_key_pair {β : Type} (f : String → β) (ks : List String) :
    (ks.map (fun k => (k, f k))).map Prod.fst = ks := by
  induction ks with
  | nil => rfl
  | cons a t ih => simp [ih]

/-- C2 counterexample: the claim says a fault inside any enabled validator is
converted to a synthetic Error Finding with segment `SYSTEM`; but the GSTIN
validator's own fault handler (the claim's cited source) produces segment
`VALIDATION`, not `SYSTEM`. -/
theorem C2_counterexample_fault_segment_not_system :
    (GSTINValidator.on_fault [] [] "unexpected fault").errors.map Finding.segment
      = ["VALIDATION"] ∧ "VALIDATION" ≠ "SYSTEM" := by
  decide

/-- C2 (amended): an unexpected internal fault inside a validator's body is
caught by that validator's own handler and converted into exactly one
appended synthetic Error Finding — with segment `SYSTEM` for the EDI
structure validator but segment `VALIDATION` for the GSTIN, product, timing
and certificate validators — and the orchestrator still returns a complete
report containing one result per enabled validator, in pipeline order. -/
theorem C2_amended_fault_boundary (e : String) (errs warns : List Finding)
    (faults : Faults) (content : String) (cfg : Config) (modules : Modules)
    (nowMin : Int) (cc : CCResult) :
    ((EDIValidator.on_fault e).errors.map Finding.segment = ["SYSTEM"] ∧
      (EDIValidator.on_fault e).success = some false) ∧
    ((GSTINValidator.on_fault errs warns e).errors = errs ++ [GSTINValidator.fault_finding e] ∧
      (GSTINValidator.fault_finding e).segment = "VALIDATION") ∧
    ((ProductValidator.on_fault errs warns e).errors = errs ++ [ProductValidator.fault_finding e] ∧
      (ProductValidator.fault_finding e).segment = "VALIDATION") ∧
    ((TimingValidator.on_fault errs warns e).errors = errs ++ [TimingValidator.fault_finding e] ∧
      (TimingValidator.fault_finding e).segment = "VALIDATION") ∧
    ((CertificateValidator.on_fault errs warns e).errors = errs ++ [CertificateValidator.fault_finding e] ∧
      (CertificateValidator.fault_finding e).segment = "VALIDATION") ∧
    ((validate_file faults content cfg modules nowMin cc).validations.map Prod.fst =
      pipeline_keys modules) := by
  refine ⟨⟨rfl, rfl⟩, ⟨rfl, rfl⟩, ⟨rfl, rfl⟩, ⟨rfl, rfl⟩, ⟨rfl, rfl⟩, ?_⟩
  exact map_fst_key_pair _ _

/-- C4 counterexample: the claim says every returned ValidationResult carries
`success` = (errors empty); but the timing validator's no-dates early return
has zero errors and no `success` key at all (and the same happens for the
GSTIN validator's no-candidate return). -/
theorem C4_counterexample_success_key_absent :
    (TimingValidator.validate (parse_edi_file 0 "") ⟨"V", "S", "27", "Maharashtra"⟩ 0).errors = [] ∧
    (TimingValidator.validate (parse_edi_file 0 "") ⟨"V", "S", "27", "Maharashtra"⟩ 0).success = none ∧
    (GSTINValidator.validate (parse_edi_file 0 "") ⟨"V", "S", "27", "Maharashtra"⟩).errors = [] ∧
    (GSTINValidator.validate (parse_edi_file 0 "") ⟨"V", "S", "27", "Maharashtra"⟩).success = none := by
  decide

/-- C4 (amended): the EDI structure validator's result always carries
`success` = (errors empty).  The GSTIN, product and timing validators carry
`success` (then necessarily `true`) exactly on runs that found candidate data
and finished with zero errors; the certificate validator carries it exactly
on zero-error runs; on every other path (error runs, and the zero-error
"no data found" early returns) the `success` key is absent.  Hence a present
and true `success` implies zero errors, but zero errors do not imply the key
is present. -/
theorem C4_amended_success_semantics :
    (∀ doc cfg, (EDIValidator.validate doc cfg).success =
      some (EDIValidator.validate doc cfg).errors.isEmpty) ∧
    (∀ doc cfg, (GSTINValidator.validate doc cfg).success = some true ↔
      ((GSTINValidator.validate doc cfg).errors = [] ∧
        GSTINValidator.extract_gstins doc.content ≠ [])) ∧
    (∀ doc cfg, (ProductValidator.validate doc cfg).success = some true ↔
      ((ProductValidator.validate doc cfg).errors = [] ∧
        ProductValidator.extract_product_codes doc.content ≠ [])) ∧
    (∀ doc cfg nowMin, (TimingValidator.validate doc cfg nowMin).success = some true ↔
      ((TimingValidator.validate doc cfg nowMin).errors = [] ∧
        (TimingValidator.extract_dates doc.content).isEmpty = false)) ∧
    (∀ doc cfg nowMin, (CertificateValidator.validate doc cfg nowMin).success = some true ↔
      (CertificateValidator.validate doc cfg nowMin).errors = []) := by
  refine ⟨?_, ?_, ?_, ?_, ?_⟩
  · intro doc cfg
    simp only [EDIValidator.validate]
    split <;> rfl
  · intro doc cfg
    simp only [GSTINValidator.validate]
    split
    · simp_all [List.isEmpty_iff]
    · split <;> simp_all [List.isEmpty_iff]
  · intro doc cfg
    simp only [ProductValidator.validate]
    split
    · simp_all [List.isEmpty_iff]
    · split <;> simp_all [List.isEmpty_iff]
  · intro doc cfg nowMin
    simp only [TimingValidator.validate]
    split
    · simp_all
    · split <;> simp_all [List.isEmpty_iff]
  · intro doc cfg nowMin
    simp only [CertificateValidator.validate]
    split <;> split <;> simp_all [List.isEmpty_iff]

/-- On empty content the certificate validator falls back to the three
synthetic sample certificates; the 5-day signing certificate lands inside the
7-day critical window, giving one error, and the underscore-style trusted
root names match no sample issuer, giving issuer warnings — for every clock
reading. -/
theorem cert_validate_empty (nowMin : Int) (cfg : Config) :
    CertificateValidator.validate (parse_edi_file nowMin "") cfg nowMin =
      { errors := [CertificateValidator.expires_soon_error "vendor_signing_cert" 5],
        warnings := [CertificateValidator.no_certs_warning,
          CertificateValidator.untrusted_issuer_warning "vendor_signing_cert"
            "DigiCert Global Root CA",
          CertificateValidator.untrusted_issuer_warning "vendor_encryption_cert"
            "VeriSign Class 3 Public Primary CA",
          CertificateValidator.key_usage_warning "vendor_encryption_cert",
          CertificateValidator.untrusted_issuer_warning "walmart_public_cert"
            "Walmart Root CA"] } := by
  have hd5 : (nowMin + 5 * 1440 - nowMin).fdiv 1440 = 5 := by
    rw [add_sub_cancel_left]; decide
  have hd90 : (nowMin + 90 * 1440 - nowMin).fdiv 1440 = 90 := by
    rw [add_sub_cancel_left]; decide
  have hd365 : (nowMin + 365 * 1440 - nowMin).fdiv 1440 = 365 := by
    rw [add_sub_cancel_left]; decide
  simp only [CertificateValidator.validate, CertificateValidator.create_sample_certificates,
    CertificateValidator.check_certificate, List.foldl, hd5, hd90, hd365]
  simp
  rw [show (parse_edi_file nowMin "").content = "" from rfl]
  decide

/-- C10 counterexample: the claim says that on empty input every validator
other than EDI Structure reports only a "no data" Warning and no Errors; but
the certificate validator reports an Error (the synthetic 5-day sample
certificate falls inside the 7-day critical window), so the run carries two
errors, not one. -/
theorem C10_counterexample_certificate_error_on_empty :
    (CertificateValidator.validate (parse_edi_file 0 "")
      ⟨"WMTIN-V", "S", "27", "Maharashtra"⟩ 0).errors.length = 1 ∧
    (run_upload "" ⟨"WMTIN-V", "S", "27", "Maharashtra"⟩ 0 {}).summary.total_errors = 2 := by
  decide

/-- C10 (amended): running the full pipeline on the empty string, at any
clock reading and configuration, raises no exception and returns a complete
five-validator report (ColdChain is not detected); the EDI validator reports
exactly the missing-content Error; the GSTIN, product and timing validators
each report no Errors and exactly their "no data found" Warning; the
certificate validator reports its "no certificates" Warning first but — via
the synthetic sample certificates — also exactly one Error for the
certificate expiring within the 7-day critical window. -/
theorem C10_amended_empty_input (nowMin : Int) (cfg : Config) (cc : CCResult) :
    ((run_upload "" cfg nowMin cc).validations.map Prod.fst =
      ["edi", "gstin", "products", "timing", "certificates"]) ∧
    (EDIValidator.validate (parse_edi_file nowMin "") cfg).errors =
      [EDIValidator.no_content_error] ∧
    (GSTINValidator.validate (parse_edi_file nowMin "") cfg).errors = [] ∧
    (GSTINValidator.validate (parse_edi_file nowMin "") cfg).warnings =
      [GSTINValidator.no_gstin_warning] ∧
    (ProductValidator.validate (parse_edi_file nowMin "") cfg).errors = [] ∧
    (ProductValidator.validate (parse_edi_file nowMin "") cfg).warnings =
      [ProductValidator.no_codes_warning] ∧
    (TimingValidator.validate (parse_edi_file nowMin "") cfg nowMin).errors = [] ∧
    (TimingValidator.validate (parse_edi_file nowMin "") cfg nowMin).warnings =
      [TimingValidator.no_dates_warning] ∧
    (CertificateValidator.validate (parse_edi_file nowMin "") cfg nowMin).errors =
      [CertificateValidator.expires_soon_error "vendor_signing_cert" 5] ∧
    (CertificateValidator.validate (parse_edi_file nowMin "") cfg nowMin).warnings.head? =
      some CertificateValidator.no_certs_warning := by
  refine ⟨?_, rfl, rfl, rfl, rfl, rfl, rfl, rfl, ?_, ?_⟩
  · exact (map_fst_key_pair _ _).trans (by decide)
  · rw [cert_validate_empty]
  · rw [cert_validate_empty]
    rfl

/-- A string passing the full anchored GSTIN regex also passes the
placeholder checksum (its 15th character is in `[0-9A-Z]`, hence
alphanumeric) and the embedded-PAN regex (its characters 3-12 are
`[A-Z]{5}[0-9]{4}[A-Z]`). -/
theorem gstin_shape_of_full_match (l : List Char)
    (h : GSTINValidator.gstinPatternAccepts l = true) :
    GSTINValidator.validate_gstin_checksum ⟨l⟩ = true ∧
    GSTINValidator.panPatternAccepts ((l.drop 2).take 10) = true := by
  unfold GSTINValidator.gstinPatternAccepts at h
  split at h
  · rename_i c0 c1 c2 c3 c4 c5 c6 c7 c8 c9 c10 c11 c12 c13 c14
    refine ⟨?_, ?_⟩ <;>
      (simp_all [GSTINValidator.panPatternAccepts, GSTINValidator.validate_gstin_checksum,
        isUpperDigit, Char.isAlphanum, Char.isAlpha, isEntityChar]
       try tauto)
  · simp at h

/-- C8: for every document whose (single) extracted GSTIN candidate passes
the full format regex and begins with state code `07`, validation against a
configuration whose `state_code` is `27` yields exactly one Error — the
state-mismatch finding — whose `details` text names both `07` (with its
state, Delhi) and `27`. -/
theorem C8_state_mismatch_single_error (doc : ParsedDoc) (cfg : Config) (g : String)
    (hx : GSTINValidator.extract_gstins doc.content = [g])
    (hfmt : GSTINValidator.gstin_full_match g = true)
    (h07 : g.data.take 2 = ['0', '7'])
    (hcfg : cfg.state_code = "27") :
    (GSTINValidator.validate doc cfg).errors =
      [GSTINValidator.state_mismatch_error "07" "Delhi" "27" cfg.state_name] ∧
    strHasSubstr (GSTINValidator.state_mismatch_error "07" "Delhi" "27" cfg.state_name).details
      "07" = true ∧
    strHasSubstr (GSTINValidator.state_mismatch_error "07" "Delhi" "27" cfg.state_name).details
      "27" = true := by
  obtain ⟨gl⟩ := g
  obtain ⟨v, sh, sc, sn⟩ := cfg
  obtain ⟨snChars⟩ := sn
  simp only [Config.state_code] at hcfg
  subst hcfg
  have h07l : gl.take 2 = ['0', '7'] := h07
  have hshape := gstin_shape_of_full_match gl hfmt
  have hlook : GSTINValidator.state_codes.lookup (⟨['0', '7']⟩ : String) = some "Delhi" := by
    decide
  have herrs : GSTINValidator.process_gstin "27" (⟨snChars⟩ : String) (⟨gl⟩ : String) =
      [GSTINValidator.state_mismatch_error "07" "Delhi" "27" (⟨snChars⟩ : String)] := by
    unfold GSTINValidator.process_gstin
    simp only [String.data]
    rw [h07l, hlook]
    simp [hfmt, hshape.1, hshape.2, show (⟨['0', '7']⟩ : String) ≠ "27" from by decide,
      show (⟨['0', '7']⟩ : String) = "07" from by decide]
  refine ⟨?_, rfl, rfl⟩
  simp [GSTINValidator.validate, hx, herrs]

/-- C8 witness: the concrete document `REF*TJ*07ABCDE1234F1Z5` has the single
candidate `07ABCDE1234F1Z5`, which passes the full regex and starts with
`07`; against state code `27` the validator emits exactly the state-mismatch
error, whose details name both `07` and `27`. -/
theorem C8_witness :
    (GSTINValidator.validate (parse_edi_file 0 "REF*TJ*07ABCDE1234F1Z5")
        ⟨"WMTIN-V", "S", "27", "Maharashtra"⟩).errors =
      [GSTINValidator.state_mismatch_error "07" "Delhi" "27" "Maharashtra"] ∧
    strHasSubstr (GSTINValidator.state_mismatch_error "07" "Delhi" "27" "Maharashtra").details
      "07" = true ∧
    strHasSubstr (GSTINValidator.state_mismatch_error "07" "Delhi" "27" "Maharashtra").details
      "27" = true :=
  C8_state_mismatch_single_error (parse_edi_file 0 "REF*TJ*07ABCDE1234F1Z5")
    ⟨"WMTIN-V", "S", "27", "Maharashtra"⟩ "07ABCDE1234F1Z5"
    (by decide) (by decide) (by decide) rfl

set_option linter.unusedTactic false in
/-- C7: for every 14-digit string, the GTIN checksum validator accepts
exactly when the check digit equals
`(10 - ((3·d0 + 1·d1 + 3·d2 + … + 1·d11 + 3·d12) mod 10)) mod 10`, the
weights alternating 3,1 from the leftmost of the first 13 digits; and in
particular it accepts `00012345678905`. -/
theorem C7_gtin_checksum_formula (s : String)
    (h1 : s.data.length = 14) (h2 : s.data.all Char.isDigit = true) :
    (ProductValidator.validate_gtin_checksum s = true ↔
      charVal (s.data.getD 13 '0') =
        (10 - (3 * charVal (s.data.getD 0 '0') + 1 * charVal (s.data.getD 1 '0') +
          3 * charVal (s.data.getD 2 '0') + 1 * charVal (s.data.getD 3 '0') +
          3 * charVal (s.data.getD 4 '0') + 1 * charVal (s.data.getD 5 '0') +
          3 * charVal (s.data.getD 6 '0') + 1 * charVal (s.data.getD 7 '0') +
          3 * charVal (s.data.getD 8 '0') + 1 * charVal (s.data.getD 9 '0') +
          3 * charVal (s.data.getD 10 '0') + 1 * charVal (s.data.getD 11 '0') +
          3 * charVal (s.data.getD 12 '0')) % 10) % 10) ∧
    ProductValidator.validate_gtin_checksum "00012345678905" = true := by
  refine ⟨?_, by decide⟩
  obtain ⟨l⟩ := s
  simp only [String.data] at h1 h2 ⊢
  rcases l with _|⟨a0,_|⟨a1,_|⟨a2,_|⟨a3,_|⟨a4,_|⟨a5,_|⟨a6,_|⟨a7,_|⟨a8,_|⟨a9,_|⟨a10,_|⟨a11,_|⟨a12,_|⟨a13,_|⟨a14,l⟩⟩⟩⟩⟩⟩⟩⟩⟩⟩⟩⟩⟩⟩⟩ <;>
    first
      | (exfalso; simp at h1; done)
      | (exfalso; simp at h1; omega)
      | (simp_all [ProductValidator.validate_gtin_checksum, List.enum, List.enumFrom]
         omega)

/-- C7 witness: the theorem instantiated at the concrete GTIN
`00012345678905` (13 digits with weighted sum 85, so check digit
`(10 - 85 mod 10) mod 10 = 5`). -/
theorem C7_witness :
    (ProductValidator.validate_gtin_checksum "00012345678905" = true ↔
      charVal ("00012345678905".data.getD 13 '0') =
        (10 - (3 * charVal ("00012345678905".data.getD 0 '0') +
          1 * charVal ("00012345678905".data.getD 1 '0') +
          3 * charVal ("00012345678905".data.getD 2 '0') +
          1 * charVal ("00012345678905".data.getD 3 '0') +
          3 * charVal ("00012345678905".data.getD 4 '0') +
          1 * charVal ("00012345678905".data.getD 5 '0') +
          3 * charVal ("00012345678905".data.getD 6 '0') +
          1 * charVal ("00012345678905".data.getD 7 '0') +
          3 * charVal ("00012345678905".data.getD 8 '0') +
          1 * charVal ("00012345678905".data.getD 9 '0') +
          3 * charVal ("00012345678905".data.getD 10 '0') +
          1 * charVal ("00012345678905".data.getD 11 '0') +
          3 * charVal ("00012345678905".data.getD 12 '0')) % 10) % 10) ∧
    ProductValidator.validate_gtin_checksum "00012345678905" = true :=
  C7_gtin_checksum_formula "00012345678905" (by decide) (by decide)

/-- C9: relative to a fixed validation-time `now`, for a document whose only
extracted date is a ship date: (1) when the ship date is exactly 25 hours in
the future, validation produces exactly the "submitted too early" Error;
(2) when it is exactly 10 hours in the future, validation produces no Error
and the ship-timing-window rule produces no warning (in particular no
"too early" advisory); and (3) a ship date falling on a Saturday makes the
business-days rule produce exactly one weekend Warning. -/
theorem C9_timing_windows :
    (∀ (doc : ParsedDoc) (cfg : Config) (nowMin : Int) (sd : DT),
      TimingValidator.extract_dates doc.content =
        { ship_date := some sd, delivery_date := none, creation_date := none } →
      dtMinutes sd - nowMin = 25 * 60 →
      (TimingValidator.validate doc cfg nowMin).errors =
        [TimingValidator.too_early_error (25 * 60)]) ∧
    (∀ (doc : ParsedDoc) (cfg : Config) (nowMin : Int) (sd : DT),
      TimingValidator.extract_dates doc.content =
        { ship_date := some sd, delivery_date := none, creation_date := none } →
      dtMinutes sd - nowMin = 10 * 60 →
      ((TimingValidator.validate doc cfg nowMin).errors = [] ∧
        (TimingValidator.ship_timing_check nowMin sd).2 = [])) ∧
    (∀ sd : DT, dtWeekday sd = 5 →
      TimingValidator.validate_business_days (some sd) none =
        [TimingValidator.ship_weekend_warning sd]) := by
  refine ⟨?_, ?_, ?_⟩
  · intro doc cfg nowMin sd hx hdiff
    have hst : TimingValidator.ship_timing_check nowMin sd =
        ([TimingValidator.too_early_error (25 * 60)], []) := by
      unfold TimingValidator.ship_timing_check
      rw [hdiff]
      norm_num
    simp [TimingValidator.validate, hx, TimingValidator.Dates.isEmpty, hst]
  · intro doc cfg nowMin sd hx hdiff
    have hst : TimingValidator.ship_timing_check nowMin sd = ([], []) := by
      unfold TimingValidator.ship_timing_check
      rw [hdiff]
      norm_num
    exact ⟨by simp [TimingValidator.validate, hx, TimingValidator.Dates.isEmpty, hst], by
      simp [hst]⟩
  · intro sd hw
    simp [TimingValidator.validate_business_days, hw]

/-- C9 witness: the three parts instantiated — the DTM ship date
2024-03-16 13:00 seen from 2024-03-15 12:00 (25 h before) errors, seen from
2024-03-16 03:00 (10 h before) passes with no timing-window advisory, and
2024-03-16 is a Saturday giving exactly one weekend warning. -/
theorem C9_witness :
    (TimingValidator.validate (parse_edi_file 0 "DTM*011*20240316*1300")
        ⟨"WMTIN-V", "S", "27", "Maharashtra"⟩ (dtMinutes ⟨2024, 3, 15, 12, 0⟩)).errors =
      [TimingValidator.too_early_error (25 * 60)] ∧
    ((TimingValidator.validate (parse_edi_file 0 "DTM*011*20240316*1300")
        ⟨"WMTIN-V", "S", "27", "Maharashtra"⟩ (dtMinutes ⟨2024, 3, 16, 3, 0⟩)).errors = [] ∧
      (TimingValidator.ship_timing_check (dtMinutes ⟨2024, 3, 16, 3, 0⟩)
        ⟨2024, 3, 16, 13, 0⟩).2 = []) ∧
    TimingValidator.validate_business_days (some ⟨2024, 3, 16, 13, 0⟩) none =
      [TimingValidator.ship_weekend_warning ⟨2024, 3, 16, 13, 0⟩] :=
  ⟨C9_timing_windows.1 (parse_edi_file 0 "DTM*011*20240316*1300")
      ⟨"WMTIN-V", "S", "27", "Maharashtra"⟩ (dtMinutes ⟨2024, 3, 15, 12, 0⟩)
      ⟨2024, 3, 16, 13, 0⟩ (by decide) (by decide),
   C9_timing_windows.2.1 (parse_edi_file 0 "DTM*011*20240316*1300")
      ⟨"WMTIN-V", "S", "27", "Maharashtra"⟩ (dtMinutes ⟨2024, 3, 16, 3, 0⟩)
      ⟨2024, 3, 16, 13, 0⟩ (by decide) (by decide),
   C9_timing_windows.2.2 ⟨2024, 3, 16, 13, 0⟩ (by decide)⟩
